import Mathlib

/-!
# Shallow embedding of `@doop/cache` (MomsFriendlyDevCo/doop-cache)

This file embeds the two code paths the specification talks about:

* `app.cache.function(options, worker)` — the memoization wrapper
  (`src/unnamed/part_000`): cache lookup, hit hooks, the worker retry
  loop, `rejectAs` fallback handling.
* `app.middleware.express.cacheFile(options)` — the Express file-cache
  middleware and its `res.cacheSend(content, options)` helper
  (`src/middleware/express.cacheFile.doop`).

JavaScript values that flow through the cache are modelled by `JSVal`;
promise settlement is modelled by `Outcome` (resolved / rejected /
never-settling).  Worker behaviour is a function from the invocation
index (0-based) to a success or failure result, which lets us talk about
"fails twice then succeeds" style schedules.  Hooks (`onCached`,
`onRetry`, `retryDelay`) are kept in a separate `Hooks` structure so
that `Settings` stays first-order and decidable; the source keeps them
on the same settings object but only ever reads them as functions.
-/

/-- A JavaScript value as far as the cache layer can observe it. -/
inductive JSVal where
  | undef
  | null
  | str (s : String)
  | num (n : Int)
  | bool (b : Bool)
deriving DecidableEq, Repr

/-- A JavaScript number as fed to `isFinite`: a finite integer-valued
number, an infinity, or `NaN`.  (The delays the source computes are
plain numbers; fractional values play no role in any claim, so the
finite case carries an `Int`.) -/
inductive JSNum where
  | num (n : Int)
  | inf
  | nan
deriving DecidableEq, Repr

/-- `isFinite(x)` for the modelled numbers. -/
def jsIsFinite : JSNum → Bool
  | .num _ => true
  | .inf => false
  | .nan => false

/-- One entry of the cache store: the value kept under an id together
with the expiry string it was stored with (`app.cache.set` is called
with three arguments on the success path but only two on the `rejectAs`
path, hence the `Option`). -/
structure StoreEntry where
  value : JSVal
  expiry : Option String
deriving DecidableEq, Repr

/-- The key/value store behind `app.cache.get` / `app.cache.set`.
Newer entries are consed on the front and shadow older ones. -/
abbrev Store := List (String × StoreEntry)

/-- `app.cache.get(id, fallback)`: the stored value under `id`, or the
fallback when no entry exists. -/
def storeGet : Store → String → JSVal → JSVal
  | [], _, dflt => dflt
  | (k, e) :: rest, id, dflt => if k = id then e.value else storeGet rest id dflt

/-- `app.cache.set(id, value, expiry?)`: record the value (and the
expiry it was called with) under `id`. -/
def storeSet (st : Store) (id : String) (v : JSVal) (exp : Option String) : Store :=
  (id, ⟨v, exp⟩) :: st

/-- One worker invocation either fulfils with a value or rejects with an
error value (`Promise.resolve(worker())`). -/
inductive WorkerResult where
  | success (v : JSVal)
  | failure (e : JSVal)
deriving DecidableEq, Repr

/-- The settings object built by `app.cache.function` after merging the
defaults with the options of the caller.  `hasRejectAs` models
`settings.hasOwnProperty("rejectAs")` — the source checks key presence,
not the value, so an explicit `rejectAs: undefined` still sets it. -/
structure Settings where
  id : String
  enabled : Bool := true
  expiry : String := "1h"
  hasRejectAs : Bool := false
  rejectAs : JSVal := .undef
  retry : Nat := 0
  invalidStore : JSVal := .str "!!!UNKNOWN!!!"
deriving DecidableEq, Repr

/-- `settings.retryDelay`: either a plain number or a function called as
`(attempt, settings)`. -/
inductive RetryDelay where
  | num (n : JSNum)
  | fn (f : Nat → Settings → JSNum)

/-- `_.isFunction(settings.retryDelay) ? settings.retryDelay(attempt,
settings) : settings.retryDelay`. -/
def computeDelay : RetryDelay → Nat → Settings → JSNum
  | .num n, _, _ => n
  | .fn f, attempt, s => f attempt s

/-- The function-valued settings of `app.cache.function`.
`onCached` is a sync function `(settings, value)`; returning `undefined`
keeps the cached value (default `(settings, value) => {}`).
`onRetry` is a sync function `(error, attempt)` that may also throw,
hence the `Except` result (default `e => console.warn(e)`, i.e. returns
`undefined`). -/
structure Hooks where
  onCached : Settings → JSVal → JSVal := fun _ _ => .undef
  onRetry : JSVal → Nat → Except JSVal JSVal := fun _ _ => .ok .undef
  retryDelay : RetryDelay := .num (.num 100)

/-- How the promise returned by `app.cache.function` settles.  `stuck`
records runs on which the outer promise never settles because an
exception escaped the settlement path — the string names the escaped
error. -/
inductive Outcome where
  | resolved (v : JSVal)
  | rejected (e : JSVal)
  | stuck (e : String)
deriving DecidableEq, Repr

/-- The retry loop `tryResolve` of `app.cache.function`, entered on a
cache miss.  `invocations` counts worker invocations so far (the next
invocation uses `worker invocations`); `attempt` is the JS `attempt`
counter at entry.  Returns the settlement outcome, the total number of
worker invocations, and the final store.

Faithful to the source:
* success: `app.cache.set(id, value, expiry)` then `resolve(value)`;
* failure with `rejectAs` configured: `app.cache.set(settings.id,
  settings.rejectAs)` (no expiry argument), after which
  `.then(()=> rejectAs)` evaluates the **unbound identifier**
  `rejectAs` — a `ReferenceError` is raised inside the chain returned by the catch
  handler, and the outer promise never settles;
* otherwise the guard `settings.hasOwnProperty("retry") &&
  settings.hasOwnProperty("retry") > 0` is always true (`retry` is
  always an own key via the defaults, and `true > 0` is `true`), so the
  retry branch is always taken: on exhaustion reject with the error,
  else run `onRetry` (a thrown error rejects, a defined return value
  resolves), then compute the delay and reject on a non-finite delay,
  else `setTimeout(tryResolve, useDelay)`. -/
def tryResolve (s : Settings) (h : Hooks) (worker : Nat → WorkerResult)
    (store : Store) (invocations attempt : Nat) : Outcome × Nat × Store :=
  match worker invocations with
  | .success v =>
      (.resolved v, invocations + 1, storeSet store s.id v (some s.expiry))
  | .failure e =>
      if s.hasRejectAs then
        (.stuck "ReferenceError: rejectAs is not defined",
          invocations + 1, storeSet store s.id s.rejectAs none)
      else if hattempt : attempt + 1 > s.retry then
        (.rejected e, invocations + 1, store)
      else
        match h.onRetry e (attempt + 1) with
        | .error thrown => (.rejected thrown, invocations + 1, store)
        | .ok retryValue =>
            if retryValue ≠ .undef then
              (.resolved retryValue, invocations + 1, store)
            else if ¬ jsIsFinite (computeDelay h.retryDelay (attempt + 1) s) then
              (.rejected (.str "Got non-numeric delay for retryDelay"),
                invocations + 1, store)
            else
              tryResolve s h worker store (invocations + 1) (attempt + 1)
termination_by s.retry - attempt
decreasing_by simp_wf; omega

/-- `app.cache.function(options, worker)`.  Returns `.error msg` when
the synchronous guards throw (missing id); otherwise the settlement
outcome, the number of worker invocations, and the final store.
The guards about `worker` being a promise / non-function are vacuous
here since `worker` is a function by type. -/
def cacheFunction (s : Settings) (h : Hooks) (worker : Nat → WorkerResult)
    (store : Store) : Except String (Outcome × Nat × Store) :=
  if s.id = "" then
    .error "No ID specified for app.cache.function(id, worker)"
  else if ¬ s.enabled then
    -- Bypass cache entirely when disabled: `Promise.resolve(worker())`
    match worker 0 with
    | .success v => .ok (.resolved v, 1, store)
    | .failure e => .ok (.rejected e, 1, store)
  else
    let res := storeGet store s.id s.invalidStore
    if res ≠ s.invalidStore then
      -- Result found: run onCached, use its value unless undefined
      let output := h.onCached s res
      .ok (.resolved (if output ≠ .undef then output else res), 0, store)
    else
      .ok (tryResolve s h worker store 0 0)

/-!
## `app.middleware.express.cacheFile` and `res.cacheSend`

`src/middleware/express.cacheFile.doop` starts with
`let Buffer = require("buffer")`, which binds the name `Buffer` to the
**`buffer` module object**, not to the `Buffer` class.  `instanceof`
with a non-callable right-hand side throws a `TypeError`, so the test
`content instanceof Buffer` on line 91 throws whenever it is evaluated
— which happens for every non-stream content that is not a string.
As a consequence the `throw new Error("Unknown content type ...")` branch
is unreachable.
-/

/-- How a readable stream behaves once piped: it either emits its data
and then `end`, or emits an `error` event. -/
inductive StreamBehavior where
  | ends (data : String)
  | errs (msg : String)
deriving DecidableEq, Repr

/-- The shapes of `content` that `res.cacheSend` distinguishes (or
fails to).  `other` stands for any JS value that is neither a readable
stream, a string, nor a byte buffer (e.g. a plain object or a number). -/
inductive Content where
  | stream (b : StreamBehavior)
  | str (s : String)
  | buf (bytes : List Nat)
  | other (desc : String)
deriving DecidableEq, Repr

/-- `content instanceof Stream.Readable`. -/
def isStream : Content → Bool
  | .stream _ => true
  | _ => false

/-- `typeof content == "string"`. -/
def isString : Content → Bool
  | .str _ => true
  | _ => false

/-- Errors the `cacheSend` promise chain can reject with. -/
inductive JSErr where
  /-- A thrown `TypeError` (e.g. `instanceof` with a non-callable
  right-hand side, or `fs` given a `null` path). -/
  | typeError (msg : String)
  /-- A thrown `Error` with a message. -/
  | error (msg : String)
  /-- `reject()` with no argument (the disabled-stream error handler). -/
  | rejectedUndefined
deriving DecidableEq, Repr

deriving instance DecidableEq for Except

/-- What was sent to the client, if anything. -/
inductive Sent where
  /-- `res.send(content)`. -/
  | body (c : Content)
  /-- `res.sendFile(path)`. -/
  | fileAt (p : String)
  /-- the stream piped straight into `res`, then `res.end()`. -/
  | piped (data : String)
  /-- `res.end(e.toString())` after a stream error. -/
  | endedWith (msg : String)
deriving DecidableEq, Repr

/-- Result of one `res.cacheSend(content, options)` call: how the
returned promise settles, which files were (fully) written, and what
response body went out. -/
structure CSResult where
  outcome : Except JSErr Unit
  writes : List (String × Content)
  sent : Option Sent
deriving DecidableEq, Repr

/-- `res.cacheSend(content, options)`.

* `settingsEnabled` is the middleware-level `settings.enabled` coerced
  to its truthiness (`true` by default; a function value is truthy);
* `cachePath` is `req.cachePath` (`none` models `null`, i.e. no staged
  path);
* `optEnabled` is the per-call `options.enabled`, defaulting to
  `req.cachePath != null`.

Branches follow the source if/else chain:
1. `csSettings.enabled && content instanceof Stream.Readable`: pipe into
   `fs.createWriteStream(req.cachePath)`, on `end` resolve and
   `res.sendFile(req.cachePath)`, on `error` reject;
2. `content instanceof Stream.Readable` (cache disabled): pipe straight
   into `res`, `res.end()`/resolve on end, `res.end(e.toString())` and
   `reject()` on error;
3. `typeof content == "string" || content instanceof Buffer`: for a
   string, `settings.enabled && fs.promises.writeFile(req.cachePath,
   content)` then `res.send(content)`; for anything that is not a
   string the `instanceof Buffer` test itself throws a `TypeError`
   because `Buffer` is the module object (see header note), so buffers
   and all other shapes reject here and nothing is sent;
4. the `throw new Error("Unknown content type passed to
   req.cacheSend() - must be a String|Buffer|Stream.Readable")` branch
   is unreachable. -/
def cacheSend (settingsEnabled : Bool) (cachePath : Option String)
    (content : Content) (optEnabled : Option Bool) : CSResult :=
  let csEnabled := optEnabled.getD cachePath.isSome
  if csEnabled ∧ isStream content then
    match cachePath, content with
    | none, _ =>
        -- `fs.createWriteStream(null)` throws
        ⟨.error (.typeError "ERR_INVALID_ARG_TYPE: the path argument must not be null"),
          [], none⟩
    | some p, .stream (.ends _) => ⟨.ok (), [(p, content)], some (.fileAt p)⟩
    | some _, .stream (.errs m) => ⟨.error (.error m), [], none⟩
    | some _, _ => ⟨.ok (), [], none⟩  -- unreachable: content is a stream here
  else if isStream content then
    match content with
    | .stream (.ends data) => ⟨.ok (), [], some (.piped data)⟩
    | .stream (.errs m) => ⟨.error .rejectedUndefined, [], some (.endedWith m)⟩
    | _ => ⟨.ok (), [], none⟩  -- unreachable: content is a stream here
  else if isString content then
    if settingsEnabled then
      match cachePath with
      | none =>
          -- `fs.promises.writeFile(null, content)` rejects; `res.send` never runs
          ⟨.error (.typeError "ERR_INVALID_ARG_TYPE: the path argument must not be null"),
            [], none⟩
      | some p => ⟨.ok (), [(p, content)], some (.body content)⟩
    else
      ⟨.ok (), [], some (.body content)⟩
  else
    -- evaluating `content instanceof Buffer` throws: `Buffer` is the
    -- `require("buffer")` module object, which is not callable
    ⟨.error (.typeError "Right-hand side of instanceof is not callable"), [], none⟩

/-- `options.enabled` of the middleware: a boolean or a function of the
request (requests are modelled as opaque tokens). -/
inductive EnabledSetting where
  | val (b : Bool)
  | fn (f : Nat → Bool)

/-- `options.path` of the middleware: a static string or a function of
the request. -/
inductive PathSetting where
  | strPath (p : String)
  | fn (f : Nat → String)

/-- `typeof settings.enabled == "function" ? settings.enabled(req, res)
: settings.enabled`. -/
def resolveEnabled : EnabledSetting → Nat → Bool
  | .val b, _ => b
  | .fn f, req => f req

/-- `typeof settings.path == "function" ? settings.path(req, res)
: settings.path`. -/
def resolvePath : PathSetting → Nat → String
  | .strPath p, _ => p
  | .fn f, req => f req

/-- The middleware options after merging with the defaults. -/
structure MWSettings where
  path : PathSetting
  enabled : EnabledSetting := .val true

/-- Outcome of the promise chain of the middleware body, before the
final `.catch`. -/
inductive ChainOutcome where
  /-- the file existed: `settings.onCachedFile` (default
  `res.sendFile(path)`) served it. -/
  | served (p : String)
  /-- the file did not exist: `req.cachePath = path`, mkdir,
  `onCreateFile`, then `next()`. -/
  | missNext (p : String)
deriving DecidableEq, Repr

/-- The middleware promise chain up to (not including) the final
`.catch`: resolve enabled and path, `throw "NEXT"` when disabled,
otherwise probe the path with `fs.promises.access` and branch on
existence.  Also returns the list of paths probed. -/
def cacheFileChain (st : MWSettings) (req : Nat) (fileExists : String → Bool) :
    Except String ChainOutcome × List String :=
  let enabled := resolveEnabled st.enabled req
  let path := resolvePath st.path req
  if ¬ enabled then
    (.error "NEXT", [])
  else if fileExists path then
    (.ok (.served path), [path])
  else
    (.ok (.missNext path), [path])

/-- What the middleware did with the request. -/
inductive MWAction where
  /-- served the cached file and terminated the chain. -/
  | servedFile (p : String)
  /-- called `next()` — the downstream handler runs. -/
  | next
  /-- `res.sendError(e)` — the request errors out. -/
  | sentError (e : String)
deriving DecidableEq, Repr

/-- Result of running the middleware on one request. -/
structure MWResult where
  /-- the paths `fs.promises.access` was called on. -/
  checkedPaths : List String
  /-- the final value of `req.cachePath` (initialised to `null`). -/
  cachePath : Option String
  action : MWAction
deriving DecidableEq, Repr

/-- The full middleware handler: the chain above plus the final
`.catch`, which turns the internal `NEXT` throw into `next()` and
sends every other error with `res.sendError(e)`. -/
def cacheFile (st : MWSettings) (req : Nat) (fileExists : String → Bool) :
    MWResult :=
  match cacheFileChain st req fileExists with
  | (.error e, checked) =>
      if e = "NEXT" then ⟨checked, none, .next⟩
      else ⟨checked, none, .sentError e⟩
  | (.ok (.served p), checked) => ⟨checked, none, .servedFile p⟩
  | (.ok (.missNext p), checked) => ⟨checked, some p, .next⟩

/-!
## Helper lemmas about the retry loop
-/

/-- When every worker invocation fails (and the default-shaped hooks
neither abort the cycle nor produce a bad delay), the loop started at
`attempt = a` with `s.retry - a = k` performs `k + 1` further worker
invocations, rejects with the error of the last one, and leaves the
store unchanged. -/
theorem tryResolve_allFail (s : Settings) (h : Hooks) (worker : Nat → WorkerResult)
    (store : Store) (errs : Nat → JSVal)
    (hw : ∀ n, worker n = .failure (errs n))
    (hra : s.hasRejectAs = false)
    (hr : ∀ e a, h.onRetry e a = .ok .undef)
    (hd : ∀ a, jsIsFinite (computeDelay h.retryDelay a s) = true) :
    ∀ k i a, s.retry - a = k →
      tryResolve s h worker store i a =
        (.rejected (errs (i + k)), i + k + 1, store) := by
  intro k
  induction k with
  | zero =>
      intro i a hk
      have hgt : a + 1 > s.retry := by omega
      rw [tryResolve]
      simp [hw i, hra, hgt]
  | succ k ih =>
      intro i a hk
      have hgt : ¬ (a + 1 > s.retry) := by omega
      rw [tryResolve]
      simp only [hw i, hra, hgt, hr, hd, Bool.false_eq_true, if_false, dif_neg]
      simp [hr, hd]
      have := ih (i + 1) (a + 1) (by omega)
      rw [this, show i + 1 + k = i + (k + 1) by omega]

/-- When the worker fails `m` times and then succeeds, and `m` does not
exceed the remaining retry budget, the loop resolves with the success
value after `m + 1` further invocations and writes it to the store with
the configured expiry. -/
theorem tryResolve_eventualSuccess (s : Settings) (h : Hooks) (worker : Nat → WorkerResult)
    (store : Store) (errs : Nat → JSVal) (v : JSVal)
    (hra : s.hasRejectAs = false)
    (hr : ∀ e a, h.onRetry e a = .ok .undef)
    (hd : ∀ a, jsIsFinite (computeDelay h.retryDelay a s) = true) :
    ∀ m i a, (∀ j, j < m → worker (i + j) = .failure (errs (i + j))) →
      worker (i + m) = .success v → m + a ≤ s.retry →
      tryResolve s h worker store i a =
        (.resolved v, i + m + 1, storeSet store s.id v (some s.expiry)) := by
  intro m
  induction m with
  | zero =>
      intro i a _ hsucc _
      rw [tryResolve]
      simp at hsucc
      simp [hsucc]
  | succ m ih =>
      intro i a hfail hsucc hle
      have hf0 : worker i = .failure (errs i) := by
        have := hfail 0 (by omega)
        simpa using this
      have hgt : ¬ (a + 1 > s.retry) := by omega
      rw [tryResolve]
      simp only [hf0, hra, hgt, Bool.false_eq_true, if_false, dif_neg]
      simp [hr, hd]
      have hrec := ih (i + 1) (a + 1)
        (fun j hj => by
          have := hfail (j + 1) (by omega)
          simpa [show i + (j + 1) = i + 1 + j by omega] using this)
        (by simpa [show i + 1 + m = i + (m + 1) by omega] using hsucc)
        (by omega)
      rw [hrec, show i + 1 + m = i + (m + 1) by omega]

/-!
## The claims
-/

/-- Claim C1 (code bug).  With `rejectAs` configured (key present) and a
failing worker, the source does write `settings.rejectAs` to the store
under the id without retrying — but it then evaluates the unbound
identifier `rejectAs` (`.then(()=> rejectAs)` instead of
`settings.rejectAs`), so a `ReferenceError` escapes and the promise
never resolves with the fallback value, contrary to the claim.  The
evaluation below shows the run at a concrete input: one worker
invocation, the fallback written to the store (with no expiry), and a
never-settling outcome instead of `resolved "FALLBACK"`. -/
theorem cacheFunction_rejectAs_neverResolves :
    cacheFunction ⟨"k", true, "1h", true, .str "FALLBACK", 0, .str "!!!UNKNOWN!!!"⟩ {}
      (fun _ => .failure (.str "boom")) [] =
      .ok (.stuck "ReferenceError: rejectAs is not defined", 1,
        [("k", ⟨.str "FALLBACK", none⟩)]) := by
  simp [cacheFunction, storeGet, tryResolve, storeSet]

/-- Claim C2 (code bug).  With a staged cache path, a *string* is indeed
persisted to the staged path and sent as the body — but a *byte buffer*
is not: since `Buffer` is bound to the `buffer` module object, the test
`content instanceof Buffer` throws a `TypeError`, so the call rejects
and nothing is written or sent. -/
theorem cacheSend_string_ok_buffer_throws :
    cacheSend true (some "/cache/p") (.str "body") none =
      ⟨.ok (), [("/cache/p", .str "body")], some (.body (.str "body"))⟩ ∧
    cacheSend true (some "/cache/p") (.buf [104, 105]) none =
      ⟨.error (.typeError "Right-hand side of instanceof is not callable"), [], none⟩ :=
  ⟨rfl, rfl⟩

/-- Claim C3 (code bug).  A content value that is neither a stream, a
string, nor a buffer does fail fatally — but with the `TypeError` thrown
by `instanceof` on the module-object `Buffer`, not with the
`Unknown content type` (UnsupportedContentType) error, whose branch is
unreachable. -/
theorem cacheSend_unknownShape_typeError :
    cacheSend true (some "/cache/p") (.other "plain object") none =
      ⟨.error (.typeError "Right-hand side of instanceof is not callable"), [], none⟩ ∧
    JSErr.typeError "Right-hand side of instanceof is not callable" ≠
      JSErr.error "Unknown content type passed to req.cacheSend() - must be a String|Buffer|Stream.Readable" :=
  ⟨rfl, by decide⟩

/-- Claim C4.  With `retry = r`, no `rejectAs`, an always-failing
worker, the default-behaved `onRetry` (returns `undefined`) and finite
computed delays, a cache-miss call rejects with the error of the final
attempt after exactly `r + 1` worker invocations, leaving the store
unchanged. -/
theorem cacheFunction_retryExhausted (s : Settings) (h : Hooks)
    (worker : Nat → WorkerResult) (store : Store) (errs : Nat → JSVal)
    (hid : s.id ≠ "") (hen : s.enabled = true)
    (hmiss : storeGet store s.id s.invalidStore = s.invalidStore)
    (hra : s.hasRejectAs = false)
    (hw : ∀ n, worker n = .failure (errs n))
    (hr : ∀ e a, h.onRetry e a = .ok .undef)
    (hd : ∀ a, jsIsFinite (computeDelay h.retryDelay a s) = true) :
    cacheFunction s h worker store =
      .ok (.rejected (errs s.retry), s.retry + 1, store) := by
  have hloop := tryResolve_allFail s h worker store errs hw hra hr hd s.retry 0 0 (by omega)
  simp only [Nat.zero_add] at hloop
  simp [cacheFunction, hid, hen, hmiss, hloop]

/-- Witness for C4 at `retry = 2`: the call rejects with the error of
the third (final) invocation after exactly 3 invocations. -/
theorem cacheFunction_retryExhausted_witness :
    cacheFunction ⟨"k", true, "1h", false, .undef, 2, .str "!!!UNKNOWN!!!"⟩ {}
      (fun n => .failure (.num n)) [] = .ok (.rejected (.num 2), 3, []) :=
  cacheFunction_retryExhausted _ _ _ _ (fun n => .num n)
    (by decide) rfl rfl rfl (fun _ => rfl) (fun _ _ => rfl) (fun _ => rfl)

/-- Claim C5.  On a cache miss where the worker fails `k` times and then
succeeds with `v` within the retry budget, the call writes `v` to the
store under the id with the configured expiry and resolves with `v`
after exactly `k + 1` worker invocations. -/
theorem cacheFunction_successWrites (s : Settings) (h : Hooks)
    (worker : Nat → WorkerResult) (store : Store) (errs : Nat → JSVal)
    (v : JSVal) (k : Nat)
    (hid : s.id ≠ "") (hen : s.enabled = true)
    (hmiss : storeGet store s.id s.invalidStore = s.invalidStore)
    (hra : s.hasRejectAs = false)
    (hfail : ∀ j, j < k → worker j = .failure (errs j))
    (hsucc : worker k = .success v)
    (hk : k ≤ s.retry)
    (hr : ∀ e a, h.onRetry e a = .ok .undef)
    (hd : ∀ a, jsIsFinite (computeDelay h.retryDelay a s) = true) :
    cacheFunction s h worker store =
      .ok (.resolved v, k + 1, storeSet store s.id v (some s.expiry)) := by
  have hloop := tryResolve_eventualSuccess s h worker store errs v hra hr hd k 0 0
    (fun j hj => by simpa using hfail j hj) (by simpa using hsucc) (by omega)
  simp only [Nat.zero_add] at hloop
  simp [cacheFunction, hid, hen, hmiss, hloop]

/-- Witness for C5 at `retry = 3` with a worker failing twice and then
succeeding: the call resolves with the success value after exactly 3
invocations, and the value is cached with the configured expiry. -/
theorem cacheFunction_successWrites_witness :
    cacheFunction ⟨"k", true, "1h", false, .undef, 3, .str "!!!UNKNOWN!!!"⟩ {}
      (fun n => if n < 2 then .failure (.num n) else .success (.str "val")) [] =
      .ok (.resolved (.str "val"), 3, [("k", ⟨.str "val", some "1h"⟩)]) :=
  cacheFunction_successWrites _ _ _ _ (fun n => .num n) (.str "val") 2
    (by decide) rfl rfl rfl (by decide) rfl (by decide)
    (fun _ _ => rfl) (fun _ => rfl)

/-- Claim C6.  On a cache hit (stored value distinct from the
`invalidStore` sentinel) the call runs `onCached(settings, value)`,
resolves with its return value when that is defined and with the stored
value otherwise, performs zero worker invocations, and leaves the store
unchanged. -/
theorem cacheFunction_hit (s : Settings) (h : Hooks)
    (worker : Nat → WorkerResult) (store : Store)
    (hid : s.id ≠ "") (hen : s.enabled = true)
    (hhit : storeGet store s.id s.invalidStore ≠ s.invalidStore) :
    cacheFunction s h worker store =
      .ok (.resolved
        (if h.onCached s (storeGet store s.id s.invalidStore) ≠ .undef
          then h.onCached s (storeGet store s.id s.invalidStore)
          else storeGet store s.id s.invalidStore), 0, store) := by
  simp [cacheFunction, hid, hen, hhit]

/-- Witness for C6: the stored value is `7` but `onCached` returns `99`,
and the hit resolves with `99`, with zero worker invocations and no
store write. -/
theorem cacheFunction_hit_witness :
    cacheFunction ⟨"k", true, "1h", false, .undef, 0, .str "!!!UNKNOWN!!!"⟩
      { onCached := fun _ _ => .num 99 } (fun _ => .success (.num 0))
      [("k", ⟨.num 7, some "1h"⟩)] =
      .ok (.resolved (.num 99), 0, [("k", ⟨.num 7, some "1h"⟩)]) :=
  cacheFunction_hit _ _ _ _ (by decide) rfl (by decide)

/-- Claim C7.  On a retryable failure (budget not yet exhausted) where
`onRetry` returns `undefined`, a non-finite computed delay — the
configured value, or the result of calling `retryDelay(attempt,
settings)` when it is a function, as `computeDelay` does — makes the
call reject immediately with the configuration error; no further worker
invocation is scheduled. -/
theorem tryResolve_nonfiniteDelay (s : Settings) (h : Hooks)
    (worker : Nat → WorkerResult) (store : Store) (i a : Nat) (e : JSVal)
    (hra : s.hasRejectAs = false)
    (hw : worker i = .failure e)
    (hlt : a + 1 ≤ s.retry)
    (hr : h.onRetry e (a + 1) = .ok .undef)
    (hd : jsIsFinite (computeDelay h.retryDelay (a + 1) s) = false) :
    tryResolve s h worker store i a =
      (.rejected (.str "Got non-numeric delay for retryDelay"), i + 1, store) := by
  have hgt : ¬ (a + 1 > s.retry) := by omega
  rw [tryResolve]
  simp [hw, hra, hgt, hr, hd]

/-- Witness for C7: `retry = 1`, `retryDelay = NaN` — the first failure
rejects with the delay configuration error after a single invocation. -/
theorem tryResolve_nonfiniteDelay_witness :
    tryResolve ⟨"k", true, "1h", false, .undef, 1, .str "!!!UNKNOWN!!!"⟩
      { retryDelay := .num .nan } (fun _ => .failure (.str "boom")) [] 0 0 =
      (.rejected (.str "Got non-numeric delay for retryDelay"), 1, []) :=
  tryResolve_nonfiniteDelay _ _ _ _ 0 0 (.str "boom") rfl rfl (by decide) rfl rfl

/-- Claim C8.  If on a retryable failure `onRetry` returns a defined
value, the call resolves immediately with that value after the single
failing invocation, and the store is left unchanged (the value is not
cached). -/
theorem tryResolve_onRetryAborts (s : Settings) (h : Hooks)
    (worker : Nat → WorkerResult) (store : Store) (i a : Nat) (e rv : JSVal)
    (hra : s.hasRejectAs = false)
    (hw : worker i = .failure e)
    (hlt : a + 1 ≤ s.retry)
    (hr : h.onRetry e (a + 1) = .ok rv)
    (hrv : rv ≠ .undef) :
    tryResolve s h worker store i a = (.resolved rv, i + 1, store) := by
  have hgt : ¬ (a + 1 > s.retry) := by omega
  rw [tryResolve]
  simp [hw, hra, hgt, hr, hrv]

/-- Witness for C8: `onRetry` returns the string `fallback`; the first
failure resolves with it immediately and nothing is written. -/
theorem tryResolve_onRetryAborts_witness :
    tryResolve ⟨"k", true, "1h", false, .undef, 1, .str "!!!UNKNOWN!!!"⟩
      { onRetry := fun _ _ => .ok (.str "fallback") }
      (fun _ => .failure (.str "boom")) [] 0 0 =
      (.resolved (.str "fallback"), 1, []) :=
  tryResolve_onRetryAborts _ _ _ _ 0 0 (.str "boom") (.str "fallback")
    rfl rfl (by decide) rfl (by decide)

/-- Claim C9.  When the resolved `enabled` value is false, the
middleware performs no filesystem existence check (for any state of the
disk), stages no cache path, and calls the downstream handler: the
internal `NEXT` throw is swallowed by the catch rather than surfacing as
a request error. -/
theorem cacheFile_disabledSkips (st : MWSettings) (req : Nat)
    (fileExists : String → Bool)
    (hdis : resolveEnabled st.enabled req = false) :
    cacheFile st req fileExists = ⟨[], none, .next⟩ := by
  simp [cacheFile, cacheFileChain, hdis]

/-- Witness for C9: `enabled = false` while a file does exist at the
resolved path — still no existence check, and the action is `next`. -/
theorem cacheFile_disabledSkips_witness :
    cacheFile ⟨.strPath "/somewhere/x", .val false⟩ 0 (fun _ => true) =
      ⟨[], none, .next⟩ :=
  cacheFile_disabledSkips _ 0 _ rfl

/-- Claim C10.  `cacheSend` with string content and no staged cache path
(`req.cachePath` null) under the default truthy middleware-level
`enabled`: the write is gated on the middleware-level setting (not the
per-call option, whose default `req.cachePath != null` is false here),
so `fs.promises.writeFile(null, content)` rejects the returned promise
and the content is never sent; with a falsy middleware-level `enabled`
the same call would skip the write and send the body. -/
theorem cacheSend_unstagedString_rejects (s : String) :
    cacheSend true none (.str s) none =
      ⟨.error (.typeError "ERR_INVALID_ARG_TYPE: the path argument must not be null"),
        [], none⟩ ∧
    cacheSend false none (.str s) none = ⟨.ok (), [], some (.body (.str s))⟩ :=
  ⟨rfl, rfl⟩

/-- Witness for C10 at the concrete body `body`. -/
theorem cacheSend_unstagedString_rejects_witness :
    cacheSend true none (.str "body") none =
      ⟨.error (.typeError "ERR_INVALID_ARG_TYPE: the path argument must not be null"),
        [], none⟩ ∧
    cacheSend false none (.str "body") none =
      ⟨.ok (), [], some (.body (.str "body"))⟩ :=
  cacheSend_unstagedString_rejects "body"
